import Mathlib

/- Shallow embedding of src/rag_api.py: a FastAPI service with a global
statistics dictionary, a GET /health endpoint and a POST /query endpoint.
Time values (Python floats from time.time()) are modelled as rationals,
document scores as rationals, and the clock as a function from read index
to time value; each handler reports how many clock reads it performed. -/

/-- State of the module-level `stats` dictionary (lines 28-32 of
src/rag_api.py): total query count, cumulative latency in ms, and the
process start timestamp captured once at import time. -/
structure Stats where
  total_queries : ℕ
  total_latency_ms : ℚ
  start_time : ℚ
deriving DecidableEq, Repr

/-- The `QueryRequest` pydantic model (lines 35-39): query text, top_k and
method, after pydantic has parsed the JSON body into typed fields. -/
structure QueryRequest where
  query : String
  top_k : ℤ
  method : String
deriving DecidableEq, Repr

/-- Pydantic field validation of `QueryRequest`: query has min_length 1 and
max_length 500, top_k satisfies ge 1 and le 100. The method field carries no
constraint in the source. Runs before the endpoint function is entered. -/
def QueryRequest.validb (r : QueryRequest) : Bool :=
  decide (1 ≤ r.query.length) && decide (r.query.length ≤ 500)
    && decide (1 ≤ r.top_k) && decide (r.top_k ≤ 100)

/-- The `Document` pydantic model (lines 41-46). -/
structure Document where
  doc_id : String
  text : String
  score : ℚ
  rank : ℕ
deriving DecidableEq, Repr

/-- The `QueryResponse` pydantic model (lines 48-55). -/
structure QueryResponse where
  query : String
  answer : String
  documents : List Document
  method : String
  latency_ms : ℚ
  timestamp : String
deriving DecidableEq, Repr

/-- The `HealthResponse` pydantic model (lines 57-62). -/
structure HealthResponse where
  status : String
  uptime_seconds : ℚ
  total_queries : ℕ
  avg_latency_ms : ℚ
deriving DecidableEq, Repr

/-- A Python exception as it can arise inside the try block of
`query_endpoint`: a fastapi HTTPException carrying a status code and a
detail string, or any other exception carrying its message. -/
inductive PyExc where
  | httpException (status : ℕ) (detail : String)
  | other (msg : String)
deriving DecidableEq, Repr

/-- `str(e)` for the exceptions above: starlette's HTTPException prints as
"status: detail"; other exceptions print their message. -/
def PyExc.toStr : PyExc → String
  | .httpException c d => toString c ++ ": " ++ d
  | .other m => m

/-- The list literal `["sparse", "dense", "hybrid"]` at line 108. -/
def validMethods : List String := ["sparse", "dense", "hybrid"]

/-- The document list comprehension at lines 113-121: for i in
range(top_k), a Document with doc_id "doc{i}", text "Sample document {i}",
score 0.9 - i*0.1 and rank i+1. Python range of a non-positive integer is
empty, which Int.toNat reproduces. -/
def makeDocuments (top_k : ℤ) : List Document :=
  (List.range top_k.toNat).map fun (i : ℕ) =>
    { doc_id := "doc" ++ toString i
      text := "Sample document " ++ toString i
      score := 9/10 - (i : ℚ) * (1/10)
      rank := i + 1 }

/-- The answer template at line 123: f"Sample answer for: {query}". -/
def makeAnswer (query : String) : String :=
  "Sample answer for: " ++ query

/-- Outcome of one HTTP request against the embedded service: the HTTP
response (Except carries status code and detail on error), the stats state
after the request, and how many time.time() reads the handler performed. -/
structure EndpointResult where
  response : Except (ℕ × String) QueryResponse
  stats : Stats
  clockReads : ℕ
deriving Repr

/-- The body of `query_endpoint` (lines 92-142) with the two post-validation
steps — document construction and answer generation — abstracted as fallible
computations, mirroring the Retriever / Answer Generator decomposition.
Control flow follows the source: time.time() is read into start_time at line
104 before the try block; inside the try block the method is checked against
validMethods (raising HTTPException 400 at line 109); the steps run; the
second time.time() read at line 126 yields the latency; the stats counters
are updated at lines 129-130; any exception escaping the try block —
including the HTTPException(400) itself, a subclass of Exception — is caught
at line 141 and re-raised as HTTPException(500, "Internal server error: "
+ str(e)), leaving the stats unchanged. -/
def query_endpoint_gen
    (docsStep : QueryRequest → Except PyExc (List Document))
    (answerStep : String → List Document → Except PyExc String)
    (req : QueryRequest) (clock : ℕ → ℚ) (ts : String) (s : Stats) :
    EndpointResult :=
  let start_time := clock 0
  let body : Except PyExc (QueryResponse × Stats) :=
    if req.method ∉ validMethods then
      .error (.httpException 400 ("Invalid method. Use: sparse, dense, or hybrid"))
    else
      match docsStep req with
      | .error e => .error e
      | .ok documents =>
        match answerStep req.query documents with
        | .error e => .error e
        | .ok answer =>
          let latency := (clock 1 - start_time) * 1000
          .ok ({ query := req.query
                 answer := answer
                 documents := documents
                 method := req.method
                 latency_ms := latency
                 timestamp := ts },
               { s with total_queries := s.total_queries + 1
                        total_latency_ms := s.total_latency_ms + latency })
  match body with
  | .ok (resp, s2) => { response := .ok resp, stats := s2, clockReads := 2 }
  | .error e =>
      { response := .error (500, "Internal server error: " ++ e.toStr)
        stats := s
        clockReads := 1 }

/-- The document-construction step exactly as written in the source
(lines 113-121): a pure list comprehension that always succeeds. -/
def docsImpl (req : QueryRequest) : Except PyExc (List Document) :=
  .ok (makeDocuments req.top_k)

/-- The answer-generation step exactly as written in the source (line 123):
a pure f-string that always succeeds. -/
def answerImpl (query : String) (_documents : List Document) :
    Except PyExc String :=
  .ok (makeAnswer query)

/-- `query_endpoint` (lines 92-142) with the concrete steps of the source. -/
def query_endpoint (req : QueryRequest) (clock : ℕ → ℚ) (ts : String)
    (s : Stats) : EndpointResult :=
  query_endpoint_gen docsImpl answerImpl req clock ts s

/-- A full POST /query request: FastAPI runs pydantic validation of the
body first and answers 422 without entering `query_endpoint` (so with no
clock read) when it fails; otherwise the endpoint function runs. -/
def handle_query (req : QueryRequest) (clock : ℕ → ℚ) (ts : String)
    (s : Stats) : EndpointResult :=
  if req.validb then query_endpoint req clock ts s
  else
    { response := .error (422, "Unprocessable Entity")
      stats := s
      clockReads := 0 }

/-- `health_check` (lines 74-89): reads the clock once for uptime, computes
the average latency with the count-zero case defined as 0, and builds a
HealthResponse. It performs no write to the stats state, which is returned
unchanged. -/
def health_check (now : ℚ) (s : Stats) : HealthResponse × Stats :=
  let uptime := now - s.start_time
  let avg_latency :=
    if s.total_queries > 0 then s.total_latency_ms / (s.total_queries : ℚ)
    else 0
  ({ status := "healthy"
     uptime_seconds := uptime
     total_queries := s.total_queries
     avg_latency_ms := avg_latency }, s)

/-- Observer: whether an HTTP outcome is a success. -/
def exceptIsOk {ε α : Type} : Except ε α → Bool
  | .ok _ => true
  | .error _ => false

/-- Observer: the status code of an error outcome, none on success. -/
def errStatus : Except (ℕ × String) QueryResponse → Option ℕ
  | .error (c, _) => some c
  | .ok _ => none

/-- Observer: the detail string of an error outcome, none on success. -/
def errDetail : Except (ℕ × String) QueryResponse → Option String
  | .error (_, d) => some d
  | .ok _ => none

/-- Observer: the documents of a successful outcome, empty on error. -/
def docsOf : Except (ℕ × String) QueryResponse → List Document
  | .ok r => r.documents
  | .error _ => []

/- Helper lemmas characterising the three outcomes of a POST /query
request: pydantic rejection, invalid method, and success. -/

/-- A request failing pydantic validation is answered 422 with no clock
read and no stats change. -/
lemma handle_query_invalid_req (req : QueryRequest) (clock : ℕ → ℚ)
    (ts : String) (s : Stats) (hv : req.validb = false) :
    handle_query req clock ts s =
      { response := .error (422, "Unprocessable Entity")
        stats := s
        clockReads := 0 } := by
  simp [handle_query, hv]

/-- A pydantic-valid request with an invalid method is answered with the
wrapped 500 after one clock read, and the stats are unchanged. -/
lemma handle_query_invalid_method (req : QueryRequest) (clock : ℕ → ℚ)
    (ts : String) (s : Stats) (hv : req.validb = true)
    (hm : req.method ∉ validMethods) :
    handle_query req clock ts s =
      { response := .error (500, "Internal server error: " ++
          PyExc.toStr (.httpException 400 ("Invalid method. Use: sparse, dense, or hybrid")))
        stats := s
        clockReads := 1 } := by
  simp [handle_query, hv, query_endpoint, query_endpoint_gen, hm]

/-- A pydantic-valid request with a valid method succeeds: the response
carries the synthetic documents and templated answer, and the stats gain
one query and the measured latency. -/
lemma handle_query_ok (req : QueryRequest) (clock : ℕ → ℚ) (ts : String)
    (s : Stats) (hv : req.validb = true) (hm : req.method ∈ validMethods) :
    handle_query req clock ts s =
      { response := .ok
          { query := req.query
            answer := makeAnswer req.query
            documents := makeDocuments req.top_k
            method := req.method
            latency_ms := (clock 1 - clock 0) * 1000
            timestamp := ts }
        stats :=
          { total_queries := s.total_queries + 1
            total_latency_ms := s.total_latency_ms + (clock 1 - clock 0) * 1000
            start_time := s.start_time }
        clockReads := 2 } := by
  simp [handle_query, hv, query_endpoint, query_endpoint_gen, docsImpl,
    answerImpl, hm]

/-- A successful POST /query implies the request was pydantic-valid and its
method was one of the three allowed values. -/
lemma handle_query_ok_cond (req : QueryRequest) (clock : ℕ → ℚ) (ts : String)
    (s : Stats)
    (h : exceptIsOk (handle_query req clock ts s).response = true) :
    req.validb = true ∧ req.method ∈ validMethods := by
  by_cases hv : req.validb = true
  · by_cases hm : req.method ∈ validMethods
    · exact ⟨hv, hm⟩
    · rw [handle_query_invalid_method req clock ts s hv hm] at h
      exact absurd h (by simp [exceptIsOk])
  · rw [Bool.not_eq_true] at hv
    rw [handle_query_invalid_req req clock ts s hv] at h
    exact absurd h (by simp [exceptIsOk])

/-- Pydantic validity forces 1 ≤ top_k ≤ 100. -/
lemma validb_top_k_bounds (r : QueryRequest) (hv : r.validb = true) :
    1 ≤ r.top_k ∧ r.top_k ≤ 100 := by
  simp only [QueryRequest.validb, Bool.and_eq_true, decide_eq_true_eq] at hv
  exact ⟨hv.1.2, hv.2⟩

/-- The documents a POST /query returns depend only on the request fields,
not on the clock, the timestamp or the stats state. -/
lemma docsOf_handle_query (req : QueryRequest) (clock : ℕ → ℚ) (ts : String)
    (s : Stats) :
    docsOf (handle_query req clock ts s).response
      = if req.validb = true ∧ req.method ∈ validMethods then
          makeDocuments req.top_k
        else [] := by
  by_cases hv : req.validb = true
  · by_cases hm : req.method ∈ validMethods
    · rw [handle_query_ok req clock ts s hv hm]; simp [docsOf, hv, hm]
    · rw [handle_query_invalid_method req clock ts s hv hm]
      simp [docsOf, hm]
  · rw [Bool.not_eq_true] at hv
    rw [handle_query_invalid_req req clock ts s hv]
    simp [docsOf, hv]

/-- The synthetic document list has length top_k.toNat. -/
lemma makeDocuments_length (k : ℤ) : (makeDocuments k).length = k.toNat := by
  simp [makeDocuments]

/-- Scores 0.9 - i*0.1 are non-increasing along the synthetic list. -/
lemma makeDocuments_scores_chain (k : ℤ) :
    List.Chain' (fun a b : Document => b.score ≤ a.score) (makeDocuments k) := by
  unfold makeDocuments
  refine List.Pairwise.chain' (List.Pairwise.map _ ?_ (List.pairwise_lt_range k.toNat))
  intro a b hab
  show (9 : ℚ)/10 - (b : ℚ) * (1/10) ≤ 9/10 - (a : ℚ) * (1/10)
  have hq : (a : ℚ) ≤ (b : ℚ) := by exact_mod_cast hab.le
  linarith

/-- Ranks along the synthetic list are exactly 1, 2, ..., length. -/
lemma makeDocuments_ranks (k : ℤ) :
    (makeDocuments k).map Document.rank
      = (List.range (makeDocuments k).length).map (fun i => i + 1) := by
  simp [makeDocuments, List.map_map, Function.comp]

/-- Identifiers along the synthetic list are doc0 ... doc(top_k - 1). -/
lemma makeDocuments_ids (k : ℤ) :
    (makeDocuments k).map Document.doc_id
      = (List.range k.toNat).map (fun i => "doc" ++ toString i) := by
  simp [makeDocuments, List.map_map, Function.comp]

/- Concrete fixtures used for closed-form checks of the theorems. -/

/-- A pydantic-valid hybrid request. -/
def sampleReq : QueryRequest :=
  { query := "what is rag?", top_k := 3, method := "hybrid" }

/-- The same request with the unsupported method "fuzzy". -/
def fuzzyReq : QueryRequest :=
  { query := "what is rag?", top_k := 3, method := "fuzzy" }

/-- A pydantic-invalid request: empty query text. -/
def emptyReq : QueryRequest :=
  { query := "", top_k := 3, method := "hybrid" }

/-- A concrete clock whose i-th read returns i. -/
def sampleClock : ℕ → ℚ := fun i => (i : ℚ)

/-- A concrete timestamp string. -/
def ts0 : String := "2026-10-12T00:00:00"

/-- A fresh stats state. -/
def stats0 : Stats := { total_queries := 0, total_latency_ms := 0, start_time := 0 }

/-- A stats state with two recorded queries totalling 10 ms. -/
def stats2 : Stats := { total_queries := 2, total_latency_ms := 10, start_time := 0 }

/-- A document-construction step failing like an unavailable corpus. -/
def corpusFailStep : QueryRequest → Except PyExc (List Document) :=
  fun _ => .error (.other ("CorpusUnavailable"))

/-- C1: the claim states that a POST /query with a method outside sparse,
dense, hybrid reports an HTTP 400-equivalent client error with the stats
unchanged. The stats are indeed unchanged, but the status code is not 400:
at method "fuzzy" the endpoint answers 500, because the blanket
`except Exception` at line 141 catches the HTTPException(400) raised at
line 109 — fastapi's HTTPException is a subclass of Exception — and
re-raises it as HTTPException(500, "Internal server error: ..."). This
theorem evaluates the embedded endpoint at that failing input. -/
theorem C1_invalid_method_wrapped_to_500 :
    errStatus (handle_query fuzzyReq sampleClock ts0 stats2).response = some 500
    ∧ errStatus (handle_query fuzzyReq sampleClock ts0 stats2).response ≠ some 400
    ∧ errDetail (handle_query fuzzyReq sampleClock ts0 stats2).response
        = some ("Internal server error: 400: Invalid method. Use: sparse, dense, or hybrid")
    ∧ (handle_query fuzzyReq sampleClock ts0 stats2).stats = stats2 := by
  decide

/-- C2 counterexample: at the pydantic-valid request with method "fuzzy",
POST /query reports an error, yet the latency timer has already started:
the handler performed its time.time() read of line 104 before the method
check of line 108, so one clock read — not zero — precedes the error. -/
theorem C2_timer_already_started :
    exceptIsOk (handle_query fuzzyReq sampleClock ts0 stats2).response = false
    ∧ (handle_query fuzzyReq sampleClock ts0 stats2).clockReads ≠ 0 := by
  decide

/-- C2 amended: every request failing validation (pydantic-invalid body or
invalid method) is answered with an error and leaves the stats counters
unchanged; a pydantic-invalid body (empty query, out-of-range top_k) is
rejected before any clock read, while an invalid method is detected only
after the first clock read has started the latency timer. -/
theorem C2_validation_errors_skip_stats (req : QueryRequest) (clock : ℕ → ℚ)
    (ts : String) (s : Stats)
    (h : req.validb = false ∨ req.method ∉ validMethods) :
    exceptIsOk (handle_query req clock ts s).response = false
    ∧ (handle_query req clock ts s).stats = s
    ∧ (req.validb = false → (handle_query req clock ts s).clockReads = 0)
    ∧ (req.validb = true → (handle_query req clock ts s).clockReads = 1) := by
  by_cases hv : req.validb = true
  · have hm : req.method ∉ validMethods := by
      rcases h with hf | hm
      · exact absurd (hv.symm.trans hf) (by decide)
      · exact hm
    rw [handle_query_invalid_method req clock ts s hv hm]
    exact ⟨rfl, rfl, fun hf => absurd (hv.symm.trans hf) (by decide),
      fun _ => rfl⟩
  · rw [Bool.not_eq_true] at hv
    rw [handle_query_invalid_req req clock ts s hv]
    exact ⟨rfl, rfl, fun _ => rfl,
      fun ht => absurd (hv.symm.trans ht) (by decide)⟩

/-- C2 witness: the amended statement applied to the empty-query request. -/
theorem C2_validation_errors_skip_stats_witness :
    exceptIsOk (handle_query emptyReq sampleClock ts0 stats2).response = false
    ∧ (handle_query emptyReq sampleClock ts0 stats2).stats = stats2
    ∧ (emptyReq.validb = false →
        (handle_query emptyReq sampleClock ts0 stats2).clockReads = 0)
    ∧ (emptyReq.validb = true →
        (handle_query emptyReq sampleClock ts0 stats2).clockReads = 1) :=
  C2_validation_errors_skip_stats emptyReq sampleClock ts0 stats2
    (Or.inl (by decide))

/-- C3: if a post-validation step — document construction or answer
generation — fails, the request is aborted with a 500 error response and
the stats counters are unchanged. Stated over the endpoint body with the
two steps abstracted as fallible computations. -/
theorem C3_step_failure_aborts_without_stats
    (docsStep : QueryRequest → Except PyExc (List Document))
    (answerStep : String → List Document → Except PyExc String)
    (req : QueryRequest) (clock : ℕ → ℚ) (ts : String) (s : Stats)
    (e : PyExc) (docs : List Document)
    (h : docsStep req = .error e
      ∨ (docsStep req = .ok docs ∧ answerStep req.query docs = .error e)) :
    errStatus (query_endpoint_gen docsStep answerStep req clock ts s).response
        = some 500
    ∧ (query_endpoint_gen docsStep answerStep req clock ts s).stats = s := by
  unfold query_endpoint_gen
  by_cases hm : req.method ∈ validMethods
  · rcases h with hd | ⟨hd, ha⟩
    · simp [hm, hd, errStatus]
    · simp [hm, hd, ha, errStatus]
  · simp [hm, errStatus]

/-- C3 witness: a corpus failure in the document-construction step aborts
the concrete request with a 500 and leaves the stats at their old value. -/
theorem C3_step_failure_witness :
    errStatus (query_endpoint_gen corpusFailStep answerImpl sampleReq
        sampleClock ts0 stats2).response = some 500
    ∧ (query_endpoint_gen corpusFailStep answerImpl sampleReq
        sampleClock ts0 stats2).stats = stats2 :=
  C3_step_failure_aborts_without_stats corpusFailStep answerImpl sampleReq
    sampleClock ts0 stats2 (.other ("CorpusUnavailable")) [] (Or.inl rfl)

/-- C4: the average latency reported by GET /health equals
total_latency_ms / total_queries when total_queries > 0, and 0 when
total_queries = 0. -/
theorem C4_health_avg_latency (now : ℚ) (s : Stats) :
    (0 < s.total_queries →
      (health_check now s).1.avg_latency_ms
        = s.total_latency_ms / (s.total_queries : ℚ))
    ∧ (s.total_queries = 0 → (health_check now s).1.avg_latency_ms = 0) := by
  constructor
  · intro h; simp [health_check, h]
  · intro h; simp [health_check, h]

/-- C4 witness: at two queries totalling 10 ms the average is 5 ms, and at
zero queries it is 0. -/
theorem C4_health_avg_latency_witness :
    (health_check 7 stats2).1.avg_latency_ms = 5
    ∧ (health_check 7 stats0).1.avg_latency_ms = 0 := by
  constructor
  · rw [(C4_health_avg_latency 7 stats2).1 (by decide)]
    norm_num [stats2]
  · exact (C4_health_avg_latency 7 stats0).2 rfl

/-- C5: every valid POST /query request (pydantic-valid fields and an
allowed method) succeeds and returns at most top_k documents. -/
theorem C5_documents_within_top_k (req : QueryRequest) (clock : ℕ → ℚ)
    (ts : String) (s : Stats) (hv : req.validb = true)
    (hm : req.method ∈ validMethods) :
    exceptIsOk (handle_query req clock ts s).response = true
    ∧ ((docsOf (handle_query req clock ts s).response).length : ℤ)
        ≤ req.top_k := by
  rw [handle_query_ok req clock ts s hv hm]
  have h1 : 1 ≤ req.top_k := (validb_top_k_bounds req hv).1
  refine ⟨rfl, ?_⟩
  simp only [docsOf, makeDocuments_length]
  rw [Int.toNat_of_nonneg (by linarith)]

/-- C5 witness: the concrete hybrid request with top_k = 3. -/
theorem C5_documents_within_top_k_witness :
    exceptIsOk (handle_query sampleReq sampleClock ts0 stats0).response = true
    ∧ ((docsOf (handle_query sampleReq sampleClock ts0 stats0).response).length : ℤ)
        ≤ sampleReq.top_k :=
  C5_documents_within_top_k sampleReq sampleClock ts0 stats0 (by decide)
    (by decide)

/-- C6: the documents of every successful POST /query have non-increasing
scores in list order and ranks exactly 1, 2, ..., length. -/
theorem C6_scores_and_ranks (req : QueryRequest) (clock : ℕ → ℚ)
    (ts : String) (s : Stats)
    (h : exceptIsOk (handle_query req clock ts s).response = true) :
    List.Chain' (fun a b : Document => b.score ≤ a.score)
      (docsOf (handle_query req clock ts s).response)
    ∧ (docsOf (handle_query req clock ts s).response).map Document.rank
        = (List.range
            (docsOf (handle_query req clock ts s).response).length).map
            (fun i => i + 1) := by
  obtain ⟨hv, hm⟩ := handle_query_ok_cond req clock ts s h
  rw [handle_query_ok req clock ts s hv hm]
  simp only [docsOf]
  exact ⟨makeDocuments_scores_chain req.top_k, makeDocuments_ranks req.top_k⟩

/-- C6 witness: the concrete hybrid request with top_k = 3. -/
theorem C6_scores_and_ranks_witness :
    List.Chain' (fun a b : Document => b.score ≤ a.score)
      (docsOf (handle_query sampleReq sampleClock ts0 stats0).response)
    ∧ (docsOf (handle_query sampleReq sampleClock ts0 stats0).response).map
          Document.rank
        = (List.range
            (docsOf (handle_query sampleReq sampleClock ts0 stats0).response).length).map
            (fun i => i + 1) :=
  C6_scores_and_ranks sampleReq sampleClock ts0 stats0 (by decide)

/-- C7: retrieval is deterministic in the request fields: two POST /query
requests with the same query text, top_k and method return the same
document identifiers and scores, whatever the clock, timestamp and stats
state of each call. -/
theorem C7_retrieval_deterministic (q : String) (k : ℤ) (m : String)
    (clock1 clock2 : ℕ → ℚ) (ts1 ts2 : String) (s1 s2 : Stats) :
    (docsOf (handle_query { query := q, top_k := k, method := m }
        clock1 ts1 s1).response).map (fun d => (d.doc_id, d.score))
      = (docsOf (handle_query { query := q, top_k := k, method := m }
        clock2 ts2 s2).response).map (fun d => (d.doc_id, d.score)) := by
  rw [docsOf_handle_query { query := q, top_k := k, method := m } clock1 ts1 s1,
    docsOf_handle_query { query := q, top_k := k, method := m } clock2 ts2 s2]

/-- C8: the stats counters never decrease: a POST /query leaves them equal
(on any failure) or increases the count by exactly one and the cumulative
latency by the non-negative measured latency (on success, under a monotone
clock), and GET /health leaves both counters unchanged. -/
theorem C8_stats_counters_monotone (req : QueryRequest) (clock : ℕ → ℚ)
    (ts : String) (s : Stats) (hclock : clock 0 ≤ clock 1) :
    s.total_queries ≤ (handle_query req clock ts s).stats.total_queries
    ∧ s.total_latency_ms ≤ (handle_query req clock ts s).stats.total_latency_ms
    ∧ (exceptIsOk (handle_query req clock ts s).response = true →
        (handle_query req clock ts s).stats.total_queries
            = s.total_queries + 1
        ∧ (handle_query req clock ts s).stats.total_latency_ms
            = s.total_latency_ms + (clock 1 - clock 0) * 1000
        ∧ 0 ≤ (clock 1 - clock 0) * 1000)
    ∧ (health_check (clock 0) s).2.total_queries = s.total_queries
    ∧ (health_check (clock 0) s).2.total_latency_ms = s.total_latency_ms := by
  have hlat : 0 ≤ (clock 1 - clock 0) * 1000 :=
    mul_nonneg (sub_nonneg.mpr hclock) (by norm_num)
  by_cases hv : req.validb = true
  · by_cases hm : req.method ∈ validMethods
    · rw [handle_query_ok req clock ts s hv hm]
      exact ⟨Nat.le_succ _, le_add_of_nonneg_right hlat,
        fun _ => ⟨rfl, rfl, hlat⟩, rfl, rfl⟩
    · rw [handle_query_invalid_method req clock ts s hv hm]
      exact ⟨le_refl _, le_refl _,
        fun hf => absurd hf (by simp [exceptIsOk]), rfl, rfl⟩
  · rw [Bool.not_eq_true] at hv
    rw [handle_query_invalid_req req clock ts s hv]
    exact ⟨le_refl _, le_refl _,
      fun hf => absurd hf (by simp [exceptIsOk]), rfl, rfl⟩

/-- C8 witness: the concrete hybrid request under the monotone clock. -/
theorem C8_stats_counters_monotone_witness :
    stats2.total_queries
        ≤ (handle_query sampleReq sampleClock ts0 stats2).stats.total_queries
    ∧ stats2.total_latency_ms
        ≤ (handle_query sampleReq sampleClock ts0 stats2).stats.total_latency_ms
    ∧ (exceptIsOk (handle_query sampleReq sampleClock ts0 stats2).response = true →
        (handle_query sampleReq sampleClock ts0 stats2).stats.total_queries
            = stats2.total_queries + 1
        ∧ (handle_query sampleReq sampleClock ts0 stats2).stats.total_latency_ms
            = stats2.total_latency_ms + (sampleClock 1 - sampleClock 0) * 1000
        ∧ 0 ≤ (sampleClock 1 - sampleClock 0) * 1000)
    ∧ (health_check (sampleClock 0) stats2).2.total_queries
        = stats2.total_queries
    ∧ (health_check (sampleClock 0) stats2).2.total_latency_ms
        = stats2.total_latency_ms :=
  C8_stats_counters_monotone sampleReq sampleClock ts0 stats2 (by decide)

/-- C9: every valid POST /query request succeeds with exactly top_k
documents, whose identifiers are doc0, doc1, ..., doc(top_k - 1). -/
theorem C9_documents_exactly_top_k (req : QueryRequest) (clock : ℕ → ℚ)
    (ts : String) (s : Stats) (hv : req.validb = true)
    (hm : req.method ∈ validMethods) :
    exceptIsOk (handle_query req clock ts s).response = true
    ∧ ((docsOf (handle_query req clock ts s).response).length : ℤ)
        = req.top_k
    ∧ (docsOf (handle_query req clock ts s).response).map Document.doc_id
        = (List.range req.top_k.toNat).map (fun i => "doc" ++ toString i) := by
  rw [handle_query_ok req clock ts s hv hm]
  have h1 : 1 ≤ req.top_k := (validb_top_k_bounds req hv).1
  refine ⟨rfl, ?_, ?_⟩
  · simp only [docsOf, makeDocuments_length]
    exact Int.toNat_of_nonneg (by linarith)
  · simp only [docsOf]
    exact makeDocuments_ids req.top_k

/-- C9 witness: the concrete hybrid request with top_k = 3. -/
theorem C9_documents_exactly_top_k_witness :
    exceptIsOk (handle_query sampleReq sampleClock ts0 stats0).response = true
    ∧ ((docsOf (handle_query sampleReq sampleClock ts0 stats0).response).length : ℤ)
        = sampleReq.top_k
    ∧ (docsOf (handle_query sampleReq sampleClock ts0 stats0).response).map
          Document.doc_id
        = (List.range sampleReq.top_k.toNat).map
            (fun i => "doc" ++ toString i) :=
  C9_documents_exactly_top_k sampleReq sampleClock ts0 stats0 (by decide)
    (by decide)

/-- C10: GET /health never modifies the stats state: the state after
health_check — total_queries, total_latency_ms and start_time — equals the
state before the call. -/
theorem C10_health_check_read_only (now : ℚ) (s : Stats) :
    (health_check now s).2 = s := rfl
